import Mathlib

/-!
Shallow embedding of src/src/process.rs from sgkim126/codechain-agent.

The file models the supervisor data types (Error, ProcessOption, Process,
Message), the operations (parse_env, run, is_running, stop, get_log,
call_rpc) and the actor loop of run_thread.  External effects (spawning,
signalling, waiting, HTTP) are modelled by explicit oracle records that say
what the outside world answers; the functions themselves follow the Rust
control flow line by line.
-/

namespace CodechainAgent

/-- Models subprocess::PopenError: an opaque error from the subprocess
library, carried around by message only. -/
structure PopenError where
  msg : String
deriving DecidableEq

/-- Models std::io::Error as carried inside Error::IO: opaque, message only. -/
structure IOErr where
  msg : String
deriving DecidableEq

/-- The Error enum of process.rs (lines 18-26).  The Rust constructor named
after the io module is written ioError here. -/
inductive Error
  | EnvParseError
  | AlreadyRunning
  | NotRunning
  | SubprocessError (e : PopenError)
  | ioError (e : IOErr)
  | CodeChainRPC (msg : String)
deriving DecidableEq

/-- Constructor tag of an Error value: two errors are of the same kind
(same enum variant) exactly when their tags agree. -/
def Error.kindTag : Error → Nat
  | .EnvParseError => 0
  | .AlreadyRunning => 1
  | .NotRunning => 2
  | .SubprocessError _ => 3
  | .ioError _ => 4
  | .CodeChainRPC _ => 5

/-- ProcessOption (process.rs lines 40-43). -/
structure ProcessOption where
  codechain_dir : String
  log_file_path : String
deriving DecidableEq

/-- A subprocess::Popen handle.  The only observation process.rs makes of a
handle is poll(): pollResult is what poll() answers at the moment of the
call (none while the OS process is still running, some exit status once it
has exited and been reaped). -/
structure Popen where
  pollResult : Option Int
deriving DecidableEq

/-- Process (process.rs lines 45-49): options plus the optional stored
handle vector; in every state the code itself creates, the vector is
[codechain, tee]. -/
structure Process where
  option : ProcessOption
  child : Option (List Popen)
deriving DecidableEq

/-- NodeStatus, from super::rpc::types; process.rs uses exactly the two
variants Run and Stop (run_thread, lines 111-115). -/
inductive NodeStatus
  | Run
  | Stop
deriving DecidableEq

/-- A minimal JSON value type standing for serde_json::Value. -/
inductive Json
  | null
  | bool (b : Bool)
  | num (n : Int)
  | str (s : String)
  | arr (xs : List Json)
  | obj (fields : List (String × Json))

/-- jsonrpc_core::Id as used here (Id::Num). -/
inductive RpcId
  | num (n : Nat)
deriving DecidableEq

/-- jsonrpc_core::MethodCall as built by call_rpc (lines 231-236): the
jsonrpc field is an Option (None omits the protocol-version field), params
is the positional Params::Array wrapped in Some. -/
structure MethodCall where
  jsonrpc : Option String
  method : String
  params : Option (List Json)
  id : RpcId

/-- Split a character list at every occurrence of sep, keeping empty
pieces, like Rust str::split with the one-character pattern sep. -/
def splitOnCharAux (sep : Char) : List Char → List Char → List (List Char)
  | [], acc => [acc.reverse]
  | c :: cs, acc =>
    if c = sep then acc.reverse :: splitOnCharAux sep cs []
    else splitOnCharAux sep cs (c :: acc)

def splitOnChar (s : String) (sep : Char) : List String :=
  (splitOnCharAux sep s.toList []).map (fun cs => String.mk cs)

/-- Rust str::split_whitespace: tokens between runs of whitespace, never
empty. -/
def splitWhitespaceAux : List Char → List Char → List String
  | [], acc => if acc.isEmpty then [] else [String.mk acc.reverse]
  | c :: cs, acc =>
    if c.isWhitespace then
      (if acc.isEmpty then [] else [String.mk acc.reverse]) ++ splitWhitespaceAux cs []
    else
      splitWhitespaceAux cs (c :: acc)

def splitWhitespace (s : String) : List String :=
  splitWhitespaceAux s.toList []

/-- Process::parse_env (lines 180-192): split the env spec on whitespace;
each token must split on "=" into exactly two pieces (the length != 2 check
of line 185 is the two-element pattern below); the first failing token
aborts the whole parse with EnvParseError. -/
def parseEnvTokens : List String → Except Error (List (String × String))
  | [] => Except.ok []
  | t :: ts =>
    match splitOnChar t '=' with
    | [k, v] => (parseEnvTokens ts).map (fun rest => (k, v) :: rest)
    | _ => Except.error Error.EnvParseError

def parse_env (env : String) : Except Error (List (String × String)) :=
  parseEnvTokens (splitWhitespace env)

/-- The pipeline run builds before calling popen() (lines 149-161):
cargo run -- <args_vec>, in the configured working directory, with the
parsed env overrides, piped into tee <log_file_path>. -/
structure ExecSpec where
  cmd : String
  args : List String
  cwd : String
  env : List (String × String)
  teeTarget : String
deriving DecidableEq

/-- What the OS answers when run calls popen(): either a PopenError or the
vector of spawned handles (codechain, tee). -/
structure RunWorld where
  spawn : Except PopenError (List Popen)

/-- Process::is_running (lines 167-178): false when no child is stored,
otherwise true exactly when poll() of child[0] answers none.  The empty
vector case is unreachable (run always stores the two pipeline handles;
Rust would panic on the index). -/
def Process.is_running (p : Process) : Bool :=
  match p.child with
  | none => false
  | some child =>
    match child with
    | [] => false
    | c :: _ => c.pollResult.isNone

/-- Process::run (lines 139-165).  Returns the result, the process after
the call, and the pipeline handed to popen() (none when no spawn was
attempted).  Guard first; args split; env parsed; only then is the command
built and spawned; the handles are stored only on spawn success. -/
def Process.run (p : Process) (env args : String) (w : RunWorld) :
    Except Error Unit × Process × Option ExecSpec :=
  if p.is_running then
    (Except.error Error.AlreadyRunning, p, none)
  else
    let args_vec := splitWhitespace args
    match parse_env env with
    | Except.error e => (Except.error e, p, none)
    | Except.ok envs =>
      let es : ExecSpec :=
        { cmd := "cargo"
          args := ["run", "--"] ++ args_vec
          cwd := p.option.codechain_dir
          env := envs
          teeTarget := p.option.log_file_path }
      match w.spawn with
      | Except.error e => (Except.error (Error.SubprocessError e), p, some es)
      | Except.ok child => (Except.ok (), { p with child := some child }, some es)

/-- The observable OS actions stop performs on the primary handle. -/
inductive StopAction
  | sigterm
  | waitTimeout (secs : Nat)
  | sigkill
deriving DecidableEq

/-- What the OS answers to stop's three calls: terminate() (io::Result),
wait_timeout(10 s) (PopenError or an optional exit status, none meaning the
timeout elapsed), kill() (io::Result). -/
structure StopWorld where
  terminate : Except IOErr Unit
  waitResult : Except PopenError (Option Int)
  kill : Except IOErr Unit

/-- After wait_timeout reports that the primary exited, its handle
remembers the exit status: subsequent poll() answers some. -/
def setPrimaryExited (children : List Popen) (code : Int) : List Popen :=
  match children with
  | [] => []
  | c :: rest => { c with pollResult := some code } :: rest

/-- Process::stop (lines 194-215).  Returns the result, the process after
the call, and the trace of OS actions performed on the primary handle.
NotRunning guard first; then terminate()?, wait_timeout(10 s)?, and on
timeout kill()?; the stored child field is never reassigned. -/
def Process.stop (p : Process) (w : StopWorld) :
    Except Error Unit × Process × List StopAction :=
  if p.is_running then
    match w.terminate with
    | Except.error e => (Except.error (Error.ioError e), p, [StopAction.sigterm])
    | Except.ok _ =>
      match w.waitResult with
      | Except.error e =>
        (Except.error (Error.SubprocessError e), p,
          [StopAction.sigterm, StopAction.waitTimeout 10])
      | Except.ok (some code) =>
        (Except.ok (), { p with child := p.child.map (fun c => setPrimaryExited c code) },
          [StopAction.sigterm, StopAction.waitTimeout 10])
      | Except.ok none =>
        match w.kill with
        | Except.error e =>
          (Except.error (Error.ioError e), p,
            [StopAction.sigterm, StopAction.waitTimeout 10, StopAction.sigkill])
        | Except.ok _ =>
          (Except.ok (), p,
            [StopAction.sigterm, StopAction.waitTimeout 10, StopAction.sigkill])
  else
    (Except.error Error.NotRunning, p, [])

/-- Process::get_log (lines 217-223): what the file system answers when the
log file is opened and read in full. -/
def Process.get_log (_p : Process) (fileRead : Except IOErr String) :
    Except Error String :=
  match fileRead with
  | Except.error e => Except.error (Error.ioError e)
  | Except.ok contents => Except.ok contents

/-- What the HTTP world answers to call_rpc: either send() fails with a
transport error message, or a response comes back and its decoding as a
jsonrpc_core::Response either fails with a message or yields a value (the
ok payload is already the re-serialization serde_json::to_value of the
decoded response, line 245). -/
inductive HttpOutcome
  | sendError (msg : String)
  | response (decode : Except String Json)

/-- Process::call_rpc (lines 225-248).  Returns the request it built, the
url it sent the single request to, and the result.  The port is the
hardcoded 8080; the jsonrpc field is None; params is the positional array
of the arguments; the id is Num 1.  send() failure maps to
CodeChainRPC with the cause's message; body-decode failure maps to
CodeChainRPC with the message prefixed by "JSON parse failed ". -/
def Process.call_rpc (_p : Process) (method : String) (arguments : List Json)
    (w : HttpOutcome) : MethodCall × String × Except Error Json :=
  let port : Nat := 8080
  let jsonrpc_request : MethodCall :=
    { jsonrpc := none
      method := method
      params := some arguments
      id := RpcId.num 1 }
  let url := "http://127.0.0.1:" ++ toString port ++ "/"
  match w with
  | HttpOutcome.sendError msg =>
    (jsonrpc_request, url, Except.error (Error.CodeChainRPC msg))
  | HttpOutcome.response decode =>
    match decode with
    | Except.error msg =>
      (jsonrpc_request, url,
        Except.error (Error.CodeChainRPC ("JSON parse failed " ++ msg)))
    | Except.ok v => (jsonrpc_request, url, Except.ok v)

/-- The Message enum (lines 51-74) without the callback senders: each
variant carries its payload plus the oracle describing what the outside
world answers while the command executes. -/
inductive Message
  | mRun (env args : String) (w : RunWorld)
  | mStop (w : StopWorld)
  | mQuit
  | mGetStatus
  | mGetLog (fileRead : Except IOErr String)
  | mCallRPC (method : String) (arguments : List Json) (w : HttpOutcome)

/-- The value a command's callback channel receives. -/
inductive Reply
  | unitReply (r : Except Error Unit)
  | statusReply (r : Except Error NodeStatus)
  | logReply (r : Except Error String)
  | valueReply (r : Except Error Json)

/-- A queued message together with whether its caller's reply receiver is
still alive when the worker calls callback.send(..).expect(..). -/
structure Envelope where
  msg : Message
  callbackAlive : Bool

/-- Outcome of the actor loop: it either leaves the loop normally (queue
drained or Quit processed) having delivered the listed replies, or the
expect on a send to a dropped receiver panics the worker thread after
delivering the listed replies. -/
inductive LoopResult
  | finished (replies : List Reply)
  | panicked (replies : List Reply)

/-- Prepend a delivered reply to the outcome of the rest of the loop. -/
def LoopResult.consReply (r : Reply) : LoopResult → LoopResult
  | LoopResult.finished rs => LoopResult.finished (r :: rs)
  | LoopResult.panicked rs => LoopResult.panicked (r :: rs)

/-- The for-message-in-rx loop of Process::run_thread (lines 86-133) over
an explicit queue.  Every arm computes its result, then sends it with
expect: a dead receiver panics the thread there (no further message is
touched); Quit sends Ok(()) and breaks. -/
def runLoop (p : Process) : List Envelope → LoopResult
  | [] => LoopResult.finished []
  | e :: rest =>
    match e.msg with
    | Message.mRun env args w =>
      let (result, p2, _) := p.run env args w
      if e.callbackAlive then
        LoopResult.consReply (Reply.unitReply result) (runLoop p2 rest)
      else
        LoopResult.panicked []
    | Message.mStop w =>
      let (result, p2, _) := p.stop w
      if e.callbackAlive then
        LoopResult.consReply (Reply.unitReply result) (runLoop p2 rest)
      else
        LoopResult.panicked []
    | Message.mQuit =>
      if e.callbackAlive then
        LoopResult.finished [Reply.unitReply (Except.ok ())]
      else
        LoopResult.panicked []
    | Message.mGetStatus =>
      let status := if p.is_running then NodeStatus.Run else NodeStatus.Stop
      if e.callbackAlive then
        LoopResult.consReply (Reply.statusReply (Except.ok status)) (runLoop p rest)
      else
        LoopResult.panicked []
    | Message.mGetLog fileRead =>
      let result := p.get_log fileRead
      if e.callbackAlive then
        LoopResult.consReply (Reply.logReply result) (runLoop p rest)
      else
        LoopResult.panicked []
    | Message.mCallRPC method arguments w =>
      let (_, _, result) := p.call_rpc method arguments w
      if e.callbackAlive then
        LoopResult.consReply (Reply.valueReply result) (runLoop p rest)
      else
        LoopResult.panicked []

/-- A configuration used for concrete instances. -/
def demoOption : ProcessOption :=
  { codechain_dir := "/codechain", log_file_path := "/log.txt" }

/-- A supervisor that has never started its process. -/
def demoIdle : Process := { option := demoOption, child := none }

/-- A supervisor whose stored primary handle still polls as alive. -/
def demoRunning : Process :=
  { option := demoOption
    child := some [{ pollResult := none }, { pollResult := none }] }

/-- A supervisor whose stored primary handle polls as exited. -/
def demoExited : Process :=
  { option := demoOption
    child := some [{ pollResult := some 0 }, { pollResult := none }] }

/-- Claim C4: run invoked while the supervised process is running returns
AlreadyRunning, hands nothing to the OS, and returns the state unchanged. -/
theorem claim4_run_while_running (p : Process) (env args : String)
    (w : RunWorld) (h : p.is_running = true) :
    p.run env args w = (Except.error Error.AlreadyRunning, p, none) := by
  simp [Process.run, h]

theorem claim4_witness :
    demoRunning.is_running = true ∧
    demoRunning.run "FOO=1" "--port 1234" { spawn := Except.ok [] } =
      (Except.error Error.AlreadyRunning, demoRunning, none) :=
  ⟨by decide,
    claim4_run_while_running demoRunning "FOO=1" "--port 1234"
      { spawn := Except.ok [] } (by decide)⟩

/-- Claim C7: stop invoked while the supervised process is not running
returns NotRunning, performs no OS action on any handle, and returns the
state (stored handles included) unchanged. -/
theorem claim7_stop_not_running (p : Process) (w : StopWorld)
    (h : p.is_running = false) :
    p.stop w = (Except.error Error.NotRunning, p, []) := by
  simp [Process.stop, h]

theorem claim7_witness :
    demoExited.is_running = false ∧
    demoExited.stop
        { terminate := Except.ok (), waitResult := Except.ok none,
          kill := Except.ok () } =
      (Except.error Error.NotRunning, demoExited, []) :=
  ⟨by decide,
    claim7_stop_not_running demoExited
      { terminate := Except.ok (), waitResult := Except.ok none,
        kill := Except.ok () } (by decide)⟩

/-- Claim C8: for every method and argument list, call_rpc builds a
JSON-RPC request whose params field is the positional array of exactly the
given arguments, whose id is the integer 1, and whose protocol-version
field is omitted, and its single request goes to the fixed local-port
endpoint http://127.0.0.1:8080/. -/
theorem claim8_call_rpc_request (p : Process) (method : String)
    (arguments : List Json) (w : HttpOutcome) :
    (p.call_rpc method arguments w).1 =
      { jsonrpc := none, method := method, params := some arguments,
        id := RpcId.num 1 } ∧
    (p.call_rpc method arguments w).2.1 = "http://127.0.0.1:8080/" := by
  cases w with
  | sendError msg => exact ⟨rfl, rfl⟩
  | response decode => cases decode <;> exact ⟨rfl, rfl⟩

/-- Claim C3 counterexample: a transport failure and a body-decode failure
of call_rpc produce the same error variant CodeChainRPC (equal kind tags);
only the message text differs, so the two RPC failure modes are not
distinguishable by error kind alone. -/
theorem claim3_counterexample :
    (demoIdle.call_rpc "ping" [] (HttpOutcome.sendError "connection refused")).2.2 =
      Except.error (Error.CodeChainRPC "connection refused") ∧
    (demoIdle.call_rpc "ping" []
        (HttpOutcome.response (Except.error "expected object"))).2.2 =
      Except.error (Error.CodeChainRPC "JSON parse failed expected object") ∧
    Error.kindTag (Error.CodeChainRPC "connection refused") =
      Error.kindTag (Error.CodeChainRPC "JSON parse failed expected object") :=
  ⟨rfl, rfl, rfl⟩

/-- Claim C3 (amended): the error type has a single RPC error kind,
CodeChainRPC, covering both failure modes: a transport failure carries the
underlying cause's message verbatim, a decode failure carries the message
prefixed with "JSON parse failed "; both are the same variant, so the two
modes are distinguished only by message text. -/
theorem claim3_single_rpc_error_kind (p : Process) (method : String)
    (arguments : List Json) (mt mp : String) :
    (p.call_rpc method arguments (HttpOutcome.sendError mt)).2.2 =
      Except.error (Error.CodeChainRPC mt) ∧
    (p.call_rpc method arguments (HttpOutcome.response (Except.error mp))).2.2 =
      Except.error (Error.CodeChainRPC ("JSON parse failed " ++ mp)) ∧
    Error.kindTag (Error.CodeChainRPC mt) =
      Error.kindTag (Error.CodeChainRPC ("JSON parse failed " ++ mp)) :=
  ⟨rfl, rfl, rfl⟩

/-- Claim C1 counterexample: from a running state, when the OS rejects the
termination signal, stop returns an ioError — an error that is neither
success nor NotRunning — so stop does not fail only with NotRunning. -/
theorem claim1_counterexample :
    demoRunning.is_running = true ∧
    (demoRunning.stop
        { terminate := Except.error { msg := "EPERM" },
          waitResult := Except.ok none, kill := Except.ok () }).1 =
      Except.error (Error.ioError { msg := "EPERM" }) ∧
    Error.ioError { msg := "EPERM" } ≠ Error.NotRunning := by
  refine ⟨by decide, rfl, by decide⟩

/-- Claim C1 (amended): from a running state, when the underlying OS calls
(terminate, wait, kill) themselves succeed, stop never fails: it sends one
graceful termination signal, waits one bounded 10-second window, on
timeout issues one unconditional forced kill, and returns success either
way; errors other than NotRunning arise only from the propagated failures
of those OS calls. -/
theorem claim1_stop_best_effort (p : Process) (w : StopWorld) (r : Option Int)
    (hrun : p.is_running = true)
    (hterm : w.terminate = Except.ok ())
    (hwait : w.waitResult = Except.ok r)
    (hkill : w.kill = Except.ok ()) :
    (p.stop w).1 = Except.ok () ∧
    (p.stop w).2.2 =
      [StopAction.sigterm, StopAction.waitTimeout 10] ++
        (match r with
         | some _ => []
         | none => [StopAction.sigkill]) := by
  cases r <;> simp [Process.stop, hrun, hterm, hwait, hkill]

theorem claim1_witness :
    demoRunning.is_running = true ∧
    (demoRunning.stop
        { terminate := Except.ok (), waitResult := Except.ok none,
          kill := Except.ok () }).1 = Except.ok () ∧
    (demoRunning.stop
        { terminate := Except.ok (), waitResult := Except.ok none,
          kill := Except.ok () }).2.2 =
      [StopAction.sigterm, StopAction.waitTimeout 10, StopAction.sigkill] := by
  have h := claim1_stop_best_effort demoRunning
    { terminate := Except.ok (), waitResult := Except.ok none,
      kill := Except.ok () } none (by decide) rfl rfl rfl
  exact ⟨by decide, h.1, h.2⟩

/-- Claim C2 counterexample: from a running state, a graceful stop succeeds
yet the stored handle pair is still present afterwards (child remains
some), so a successful stop does not re-establish the handles-absent
NotStarted state the claim requires. -/
theorem claim2_counterexample :
    demoRunning.is_running = true ∧
    (demoRunning.stop
        { terminate := Except.ok (), waitResult := Except.ok (some 0),
          kill := Except.ok () }).1 = Except.ok () ∧
    (demoRunning.stop
        { terminate := Except.ok (), waitResult := Except.ok (some 0),
          kill := Except.ok () }).2.1.child =
      some [{ pollResult := some 0 }, { pollResult := none }] := by
  refine ⟨by decide, rfl, by decide⟩

/-- Claim C2 (amended): a successful graceful stop does not clear the
stored handle pair — the handles stay stored, with the primary handle now
polling as exited — so the process reports not-running afterwards (a
subsequent GetStatus replies Stop), but the handles-absent state only
returns when the next successful run replaces them. -/
theorem claim2_stop_keeps_handles (p : Process) (w : StopWorld) (c : Popen)
    (rest : List Popen) (code : Int)
    (hchild : p.child = some (c :: rest))
    (hrun : p.is_running = true)
    (hterm : w.terminate = Except.ok ())
    (hwait : w.waitResult = Except.ok (some code)) :
    (p.stop w).1 = Except.ok () ∧
    (p.stop w).2.1.child = some ({ c with pollResult := some code } :: rest) ∧
    (p.stop w).2.1.is_running = false := by
  have hc : c.pollResult = none := by
    have h := hrun
    simp [Process.is_running, hchild, Option.isNone_iff_eq_none] at h
    exact h
  refine ⟨by simp [Process.stop, hrun, hterm, hwait], ?_, ?_⟩ <;>
    simp [Process.stop, hrun, hterm, hwait, hchild, hc, Process.is_running,
      setPrimaryExited]

theorem claim2_witness :
    demoRunning.child =
      some [{ pollResult := none }, { pollResult := none }] ∧
    demoRunning.is_running = true ∧
    ((demoRunning.stop
        { terminate := Except.ok (), waitResult := Except.ok (some 0),
          kill := Except.ok () }).1 = Except.ok () ∧
     (demoRunning.stop
        { terminate := Except.ok (), waitResult := Except.ok (some 0),
          kill := Except.ok () }).2.1.child =
        some [{ pollResult := some 0 }, { pollResult := none }] ∧
     (demoRunning.stop
        { terminate := Except.ok (), waitResult := Except.ok (some 0),
          kill := Except.ok () }).2.1.is_running = false) :=
  ⟨by decide, by decide,
    claim2_stop_keeps_handles demoRunning
      { terminate := Except.ok (), waitResult := Except.ok (some 0),
        kill := Except.ok () }
      { pollResult := none } [{ pollResult := none }] 0
      (by decide) (by decide) rfl rfl⟩

/-- Parsing aborts with EnvParseError as soon as the token list contains a
token that does not split on the separator into exactly two pieces. -/
theorem parseEnvTokens_error_of_bad (ts : List String)
    (h : ∃ t ∈ ts, (splitOnChar t '=').length ≠ 2) :
    parseEnvTokens ts = Except.error Error.EnvParseError := by
  induction ts with
  | nil => simp at h
  | cons t rest ih =>
    rcases h with ⟨u, hu, hlen⟩
    rcases List.mem_cons.mp hu with h1 | h2
    · subst h1
      unfold parseEnvTokens
      rcases hks : splitOnChar u '=' with _ | ⟨k, _ | ⟨v, _ | ⟨x, xs⟩⟩⟩ <;>
        simp_all
    · unfold parseEnvTokens
      rcases hks : splitOnChar t '=' with _ | ⟨k, _ | ⟨v, _ | ⟨x, xs⟩⟩⟩ <;>
        simp [ih ⟨u, h2, hlen⟩, Except.map]

/-- Claim C5: when the process is not running and the env spec has a
whitespace-separated token without exactly one separator, run returns
EnvParseError before any side effect: nothing is handed to the OS, the
state is unchanged, and a subsequent GetStatus in the actor loop still
replies Stop. -/
theorem claim5_bad_env_spec (p : Process) (env args : String) (w : RunWorld)
    (hrun : p.is_running = false)
    (hbad : ∃ t ∈ splitWhitespace env, (splitOnChar t '=').length ≠ 2) :
    p.run env args w = (Except.error Error.EnvParseError, p, none) ∧
    runLoop p [⟨Message.mRun env args w, true⟩, ⟨Message.mGetStatus, true⟩] =
      LoopResult.finished
        [Reply.unitReply (Except.error Error.EnvParseError),
         Reply.statusReply (Except.ok NodeStatus.Stop)] := by
  have hpe : parse_env env = Except.error Error.EnvParseError := by
    unfold parse_env
    exact parseEnvTokens_error_of_bad _ hbad
  have h1 : p.run env args w = (Except.error Error.EnvParseError, p, none) := by
    simp [Process.run, hrun, hpe]
  refine ⟨h1, ?_⟩
  simp [runLoop, h1, hrun, LoopResult.consReply]

theorem claim5_witness :
    demoIdle.is_running = false ∧
    (∃ t ∈ splitWhitespace "FOO", (splitOnChar t '=').length ≠ 2) ∧
    (demoIdle.run "FOO" "--port 1234" { spawn := Except.ok [] } =
        (Except.error Error.EnvParseError, demoIdle, none) ∧
     runLoop demoIdle
        [⟨Message.mRun "FOO" "--port 1234" { spawn := Except.ok [] }, true⟩,
         ⟨Message.mGetStatus, true⟩] =
       LoopResult.finished
         [Reply.unitReply (Except.error Error.EnvParseError),
          Reply.statusReply (Except.ok NodeStatus.Stop)]) :=
  ⟨by decide, by decide,
    claim5_bad_env_spec demoIdle "FOO" "--port 1234" { spawn := Except.ok [] }
      (by decide) (by decide)⟩

/-- Claim C6: when the process is not running and the OS spawn succeeds
with a live primary, run with env spec "FOO=1 BAR=2" and arg spec
"--port 1234" succeeds, the pipeline handed to the OS carries exactly the
env overrides FOO=1 and BAR=2 and the arguments --port 1234 appended to the
fixed cargo run -- invocation, the handles are stored, and a subsequent
GetStatus in the actor loop replies Run. -/
theorem claim6_run_success (p : Process) (w : RunWorld) (c t : Popen)
    (hrun : p.is_running = false)
    (hspawn : w.spawn = Except.ok [c, t])
    (halive : c.pollResult = none) :
    p.run "FOO=1 BAR=2" "--port 1234" w =
      (Except.ok (), { p with child := some [c, t] },
        some
          { cmd := "cargo", args := ["run", "--", "--port", "1234"],
            cwd := p.option.codechain_dir,
            env := [("FOO", "1"), ("BAR", "2")],
            teeTarget := p.option.log_file_path }) ∧
    runLoop p
        [⟨Message.mRun "FOO=1 BAR=2" "--port 1234" w, true⟩,
         ⟨Message.mGetStatus, true⟩] =
      LoopResult.finished
        [Reply.unitReply (Except.ok ()),
         Reply.statusReply (Except.ok NodeStatus.Run)] := by
  have hpe : parse_env "FOO=1 BAR=2" =
      Except.ok [("FOO", "1"), ("BAR", "2")] := rfl
  have hargs : splitWhitespace "--port 1234" = ["--port", "1234"] := rfl
  have h1 : p.run "FOO=1 BAR=2" "--port 1234" w =
      (Except.ok (), { p with child := some [c, t] },
        some
          { cmd := "cargo", args := ["run", "--", "--port", "1234"],
            cwd := p.option.codechain_dir,
            env := [("FOO", "1"), ("BAR", "2")],
            teeTarget := p.option.log_file_path }) := by
    simp [Process.run, hrun, hpe, hargs, hspawn]
  refine ⟨h1, ?_⟩
  simp [runLoop, h1, Process.is_running, halive, LoopResult.consReply]

theorem claim6_witness :
    demoIdle.is_running = false ∧
    (RunWorld.mk (Except.ok [{ pollResult := none }, { pollResult := none }])).spawn =
      Except.ok [{ pollResult := none }, { pollResult := none }] ∧
    (Popen.mk none).pollResult = none ∧
    runLoop demoIdle
        [⟨Message.mRun "FOO=1 BAR=2" "--port 1234"
            (RunWorld.mk (Except.ok [{ pollResult := none }, { pollResult := none }])),
          true⟩,
         ⟨Message.mGetStatus, true⟩] =
      LoopResult.finished
        [Reply.unitReply (Except.ok ()),
         Reply.statusReply (Except.ok NodeStatus.Run)] :=
  ⟨by decide, rfl, rfl,
    (claim6_run_success demoIdle
      (RunWorld.mk (Except.ok [{ pollResult := none }, { pollResult := none }]))
      { pollResult := none } { pollResult := none }
      (by decide) rfl rfl).2⟩

/-- Claim C9: in the actor loop, a processed Quit always sends a success
reply and then exits the loop permanently: running any queue equals running
the queue truncated right after that Quit, so no command queued behind it
is ever processed or replied to. -/
theorem claim9_quit_terminal (p : Process) (es1 es2 : List Envelope) :
    runLoop p (⟨Message.mQuit, true⟩ :: es2) =
      LoopResult.finished [Reply.unitReply (Except.ok ())] ∧
    runLoop p (es1 ++ ⟨Message.mQuit, true⟩ :: es2) =
      runLoop p (es1 ++ [⟨Message.mQuit, true⟩]) := by
  refine ⟨by simp [runLoop], ?_⟩
  induction es1 generalizing p with
  | nil => simp [runLoop]
  | cons e rest ih =>
    rcases e with ⟨m, alive⟩
    cases m with
    | mRun env args w =>
      rcases hr : p.run env args w with ⟨r, p2, sp⟩
      cases alive <;> simp [runLoop, hr, ih]
    | mStop w =>
      rcases hs : p.stop w with ⟨r, p2, tr⟩
      cases alive <;> simp [runLoop, hs, ih]
    | mQuit => cases alive <;> simp [runLoop]
    | mGetStatus => cases alive <;> simp [runLoop, ih]
    | mGetLog fr => cases alive <;> simp [runLoop, ih]
    | mCallRPC meth argl w =>
      rcases hc : p.call_rpc meth argl w with ⟨req, url, r⟩
      cases alive <;> simp [runLoop, hc, ih]

/-- Any queue whose reply receivers are all still alive is processed to a
normal finish: the loop never panics and delivers a reply list. -/
theorem runLoop_finished_of_alive :
    ∀ es : List Envelope, (∀ e ∈ es, e.callbackAlive = true) →
      ∀ p : Process, ∃ rs, runLoop p es = LoopResult.finished rs := by
  intro es
  induction es with
  | nil => exact fun _ p => ⟨[], rfl⟩
  | cons e rest ih =>
    intro h p
    have he : e.callbackAlive = true := h e (List.mem_cons_self e rest)
    have hrest : ∀ x ∈ rest, x.callbackAlive = true :=
      fun x hx => h x (List.mem_cons_of_mem e hx)
    rcases e with ⟨m, alive⟩
    simp only [Envelope.callbackAlive] at he
    subst he
    cases m with
    | mRun env args w =>
      rcases hr : p.run env args w with ⟨r, p2, sp⟩
      obtain ⟨rs, hrs⟩ := ih hrest p2
      exact ⟨Reply.unitReply r :: rs,
        by simp [runLoop, hr, hrs, LoopResult.consReply]⟩
    | mStop w =>
      rcases hs : p.stop w with ⟨r, p2, tr⟩
      obtain ⟨rs, hrs⟩ := ih hrest p2
      exact ⟨Reply.unitReply r :: rs,
        by simp [runLoop, hs, hrs, LoopResult.consReply]⟩
    | mQuit => exact ⟨[Reply.unitReply (Except.ok ())], by simp [runLoop]⟩
    | mGetStatus =>
      obtain ⟨rs, hrs⟩ := ih hrest p
      exact ⟨Reply.statusReply
          (Except.ok (if p.is_running then NodeStatus.Run else NodeStatus.Stop)) :: rs,
        by simp [runLoop, hrs, LoopResult.consReply]⟩
    | mGetLog fr =>
      obtain ⟨rs, hrs⟩ := ih hrest p
      exact ⟨Reply.logReply (p.get_log fr) :: rs,
        by simp [runLoop, hrs, LoopResult.consReply]⟩
    | mCallRPC meth argl w =>
      rcases hc : p.call_rpc meth argl w with ⟨req, url, r⟩
      obtain ⟨rs, hrs⟩ := ih hrest p
      exact ⟨Reply.valueReply r :: rs,
        by simp [runLoop, hc, hrs, LoopResult.consReply]⟩

/-- Claim C10: reply delivery is asserted rather than handled: executing
any command whose caller has dropped its reply receiver panics the worker
at the expect on send, terminating the loop with no later message
processed; the always-replies-and-proceeds guarantee holds whenever every
queued caller's receiver is still alive, in which case the loop finishes
normally with a reply list. -/
theorem claim10_reply_expect (p p2 : Process) (m : Message)
    (es esAlive : List Envelope)
    (hAlive : ∀ e ∈ esAlive, e.callbackAlive = true) :
    runLoop p (⟨m, false⟩ :: es) = LoopResult.panicked [] ∧
    ∃ rs, runLoop p2 esAlive = LoopResult.finished rs := by
  constructor
  · cases m with
    | mRun env args w =>
      rcases hr : p.run env args w with ⟨r, q, sp⟩
      simp [runLoop, hr]
    | mStop w =>
      rcases hs : p.stop w with ⟨r, q, tr⟩
      simp [runLoop, hs]
    | mQuit => simp [runLoop]
    | mGetStatus => simp [runLoop]
    | mGetLog fr => simp [runLoop]
    | mCallRPC meth argl w =>
      rcases hc : p.call_rpc meth argl w with ⟨req, url, r⟩
      simp [runLoop, hc]
  · exact runLoop_finished_of_alive esAlive hAlive p2

theorem claim10_witness :
    (∀ e ∈ [Envelope.mk Message.mGetStatus true], e.callbackAlive = true) ∧
    (runLoop demoIdle [⟨Message.mGetStatus, false⟩] = LoopResult.panicked [] ∧
     ∃ rs, runLoop demoRunning [Envelope.mk Message.mGetStatus true] =
        LoopResult.finished rs) :=
  ⟨by decide,
    claim10_reply_expect demoIdle demoRunning Message.mGetStatus []
      [Envelope.mk Message.mGetStatus true] (by decide)⟩

end CodechainAgent
